import Mathlib

/-!
Shallow embedding of biswasray/threadverse (TypeScript).

The repository has two variants of the same worker pool:
- `src/node/index.ts` (the runtime variant, selected by `src/lib/index.ts`
  since `isNodeEnvironment = true`): `createWorker` spawns a
  `worker_threads.Worker` from a generated script, `createPool` wraps it in a
  retrying promise.
- `src/lib/web/index.ts`: the browser variant, using a Web `Worker` built from
  a `Blob` URL, with a synthetic `ExitEvent` replacing the missing native
  `exit` event.

The embedding models one invocation of the pooled function as a deterministic
timed computation. Time is in whole milliseconds (`Nat`). The behaviour of the
user computation inside each spawned worker is an environment parameter
(`CompBehavior`): the worker either returns a value, throws, crashes at the
infrastructure level, or hangs, a fixed number of milliseconds after its
arguments are delivered.

Platform semantics reflected in the model (all observable in the source):
- `worker.terminate()` on a `worker_threads.Worker` causes an `exit` event
  with code 1; an uncaught exception (or unhandled rejection) in the worker
  causes an `error` event followed by `exit` with code 1; a clean
  `parentPort.close()` causes `exit` with code 0.
- A Web `Worker`'s `terminate()` fires no event at all; the only `exit`
  events in the web variant are the synthetic `ExitEvent`s that the pool's
  own `message`/`error` listeners dispatch.
- `signal.addEventListener("abort", h, { once: true })` on an `AbortSignal`
  that was aborted before the listener was registered never invokes `h`:
  the abort event has already been dispatched. Neither variant checks
  `signal.aborted` before registering the listener.
- `worker.terminate()` on an already-exited worker is a no-op and produces
  no further event; `postMessage` to a terminated worker is ignored.
- Worker `error` events always deliver `Error` instances, so the
  `errorInstance instanceof Error` test in `exitHandler` succeeds whenever
  `errorInstance` has been assigned.

Deterministic tie-breaks chosen for simultaneous events (the source leaves
these to the host's timer ordering; no claim below depends on a tie):
- If a forced termination (timeout or abort) is due at the same millisecond
  as a natural completion or an argument delivery, the termination wins.
- If the timeout timer and the abort event are due at the same millisecond,
  the timeout (whose timer was registered first) wins.

The `logger` option is observational only (`exitHandler` logs a retry notice
and nothing else reads it), so it is omitted from the model.
-/

namespace Threadverse

/-- `IResponse` from `src/interfaces/index.ts`: the tagged message union the
web worker script posts back (`{type: "success", content}` or
`{type: "error", error}`). -/
inductive IResponse (ρ ε : Type) where
  | success (content : ρ)
  | error (error : ε)
deriving DecidableEq

/-- The single message a node worker posts: `parentPort.postMessage(result)`
(src/node/index.ts line 78) sends the raw result, with no tag. -/
inductive NodeWorkerMsg (ρ : Type) where
  | raw (result : ρ)
deriving DecidableEq

/-- Messages the node worker script emits for one delivered argument list.
The script (src/node/index.ts lines 71 to 81) has no try/catch: a returned
value is posted raw; a thrown error produces no message (it escapes the
async handler and crashes the worker). -/
def nodeScriptMessages {ρ ε : Type} (run : Except ε ρ) : List (NodeWorkerMsg ρ) :=
  match run with
  | .ok v => [.raw v]
  | .error _ => []

/-- Runtime `error` events the node worker produces for one delivered
argument list: a throw escapes the uncaught handler and surfaces as a worker
`error` event. -/
def nodeScriptRuntimeErrors {ρ ε : Type} (run : Except ε ρ) : List ε :=
  match run with
  | .ok _ => []
  | .error e => [e]

/-- Messages the web worker script emits for one delivered argument list.
The script (src/lib/web/index.ts lines 35 to 50) wraps the call in
try/catch and posts exactly one tagged message. -/
def webScriptMessages {ρ ε : Type} (run : Except ε ρ) : List (IResponse ρ ε) :=
  match run with
  | .ok v => [.success v]
  | .error e => [.error e]

/-- State of the `AbortSignal` passed as `options.signal`, relative to the
start of one pooled invocation (time 0). -/
inductive SignalSpec where
  | alreadyAborted
  | abortsAt (t : Nat)
deriving DecidableEq

/-- Environment: what the user computation does inside one spawned worker,
measured from the moment its arguments are delivered. `crashes` stands for
an isolate-infrastructure failure outside the computation's own error
channel (a worker `error` event in both variants). -/
inductive CompBehavior (ρ ε : Type) where
  | returns (v : ρ) (dur : Nat)
  | throws (e : ε) (dur : Nat)
  | crashes (e : ε) (dur : Nat)
  | hangs
deriving DecidableEq

/-- Why a worker was forcibly terminated. -/
inductive TermReason where
  | byTimeout
  | byAbort
deriving DecidableEq

/-- `IRunnableOption` from `src/interfaces/index.ts` (logger omitted:
observational only). `retriesWithIn` is the list of retry delays. -/
structure RunnableOption where
  signal : Option SignalSpec := none
  startTime : Option Nat := none
  timeout : Option Nat := none
  retriesWithIn : List Nat := []
deriving DecidableEq

/-- The timeout timer's fire time, if one is created: both variants guard
timer creation with `if (timeout)` (src/node/index.ts line 99,
src/lib/web/index.ts line 69), so an absent timeout and `timeout = 0`
both create no timer. -/
def activeTimeout (timeout : Option Nat) : Option Nat :=
  match timeout with
  | some T => if T = 0 then none else some T
  | none => none

/-- When (relative to spawn) this attempt's abort listener fires, if ever.
Listeners registered after the signal aborted never fire; a worker spawned
at `spawnAt` has its listener registered at `spawnAt`. -/
def abortRelAt (signal : Option SignalSpec) (spawnAt : Nat) : Option Nat :=
  match signal with
  | some (.abortsAt t) => if spawnAt ≤ t then some (t - spawnAt) else none
  | some .alreadyAborted => none
  | none => none

/-- The earliest forced termination due for this attempt, with its reason
(timeout wins a tie with abort: its timer was registered first). -/
def killEvent (timeout : Option Nat) (abortRel : Option Nat) : Option (Nat × TermReason) :=
  match activeTimeout timeout, abortRel with
  | some T, some a => if T ≤ a then some (T, .byTimeout) else some (a, .byAbort)
  | some T, none => some (T, .byTimeout)
  | none, some a => some (a, .byAbort)
  | none, none => none

/-- When the worker receives its arguments, if ever. `if (startTime)` in
both variants means `startTime = 0` (or absent, since the destructuring
defaults it to 0) posts immediately at spawn; otherwise a start timer
posts at `s`, which reaches a live worker only if no termination is due
strictly before `s`. -/
def deliveryAt (s : Nat) (kill : Option (Nat × TermReason)) : Option Nat :=
  if s = 0 then some 0
  else
    match kill with
    | some (k, _) => if s < k then some s else none
    | none => some s

/-- What the computation itself does, once arguments arrive. -/
inductive CompOutcome (ρ ε : Type) where
  | value (v : ρ)
  | thrown (e : ε)
  | crashed (e : ε)
deriving DecidableEq

/-- Time and kind of the worker's natural end (none if it never ends on its
own: the computation hangs, or the arguments were never delivered). -/
def naturalEnd {ρ ε : Type} (beh : CompBehavior ρ ε) (delivered : Option Nat) :
    Option (Nat × CompOutcome ρ ε) :=
  match beh, delivered with
  | .returns v d, some td => some (td + d, .value v)
  | .throws e d, some td => some (td + d, .thrown e)
  | .crashes e d, some td => some (td + d, .crashed e)
  | _, _ => none

/-- Is a timer with fire time `fireAt` still pending (created, not yet
fired) strictly after time `t`? -/
def timerPendingAt (fireAt : Option Nat) (t : Nat) : Bool :=
  match fireAt with
  | some f => decide (t < f)
  | none => false

/-- How one node-variant attempt ends, as observed on the `Worker` object. -/
inductive AttemptEndKind (ρ ε : Type) where
  | outcomeMsg (v : ρ)
  | runtimeError (e : ε)
  | forced (reason : TermReason)
  | neverEnds
deriving DecidableEq

/-- Trace of one node-variant attempt. `endTime` is relative to spawn and
meaningful only when `endKind` is not `neverEnds`. `exitCode` is the code
of the `exit` event, if one fires. The two pending flags record whether the
start timer and the timeout timer are still due to fire strictly after the
attempt ended. -/
structure AttemptTrace (ρ ε : Type) where
  endKind : AttemptEndKind ρ ε
  endTime : Nat
  exitCode : Option Nat
  argsDeliveredAt : Option Nat
  startTimerPendingAfterEnd : Bool
  timeoutTimerPendingAfterEnd : Bool
deriving DecidableEq

/-- Node trace of a worker that ends on its own at `tc`: a value is posted
raw and the message handler (src/node/index.ts lines 105 to 109) clears
both timers before the clean exit (code 0); a throw or an infrastructure
crash surfaces as an `error` event and a crash exit (code 1) with no timer
clearing anywhere (the handlers that would do it are commented out). -/
def nodeNaturalTrace {ρ ε : Type} (tout delivered : Option Nat) (tc : Nat)
    (out : CompOutcome ρ ε) : AttemptTrace ρ ε :=
  match out with
  | .value v =>
    { endKind := .outcomeMsg v, endTime := tc, exitCode := some 0,
      argsDeliveredAt := delivered,
      startTimerPendingAfterEnd := false,
      timeoutTimerPendingAfterEnd := false }
  | .thrown e =>
    { endKind := .runtimeError e, endTime := tc, exitCode := some 1,
      argsDeliveredAt := delivered,
      startTimerPendingAfterEnd := false,
      timeoutTimerPendingAfterEnd := timerPendingAt tout tc }
  | .crashed e =>
    { endKind := .runtimeError e, endTime := tc, exitCode := some 1,
      argsDeliveredAt := delivered,
      startTimerPendingAfterEnd := false,
      timeoutTimerPendingAfterEnd := timerPendingAt tout tc }

/-- Node trace of a worker forcibly terminated at `k` (exit code 1, no
message and no `error` event). The timeout callback (src/node/index.ts
lines 100 to 103) also clears the start timer; the abort handler (lines
84 to 91) only terminates, leaving both timers to fire into a dead
worker. -/
def nodeForcedTrace {ρ ε : Type} (s : Nat) (tout delivered : Option Nat)
    (k : Nat) (reason : TermReason) : AttemptTrace ρ ε :=
  match reason with
  | .byTimeout =>
    { endKind := .forced .byTimeout, endTime := k, exitCode := some 1,
      argsDeliveredAt := delivered,
      startTimerPendingAfterEnd := false,
      timeoutTimerPendingAfterEnd := false }
  | .byAbort =>
    { endKind := .forced .byAbort, endTime := k, exitCode := some 1,
      argsDeliveredAt := delivered,
      startTimerPendingAfterEnd := (!(s == 0)) && decide (k < s),
      timeoutTimerPendingAfterEnd := timerPendingAt tout k }

/-- Node trace of a worker that never ends: no exit event ever fires. -/
def nodeNeverTrace {ρ ε : Type} (delivered : Option Nat) : AttemptTrace ρ ε :=
  { endKind := .neverEnds, endTime := 0, exitCode := none,
    argsDeliveredAt := delivered,
    startTimerPendingAfterEnd := false,
    timeoutTimerPendingAfterEnd := false }

/-- One run of node `createWorker` (src/node/index.ts lines 66 to 113), as
a function of the options, the relative abort time for this attempt, and
the computation's behaviour: whichever of the natural end and the forced
termination is due first produces the attempt's trace (strictly earlier
natural completion wins; the tie-breaks are listed in the header). -/
def nodeAttempt {ρ ε : Type} (startTime timeout abortRel : Option Nat)
    (beh : CompBehavior ρ ε) : AttemptTrace ρ ε :=
  let s := startTime.getD 0
  let tout := activeTimeout timeout
  let kill := killEvent timeout abortRel
  let delivered := deliveryAt s kill
  match naturalEnd beh delivered, kill with
  | some (tc, out), some (k, reason) =>
    if tc < k then nodeNaturalTrace tout delivered tc out
    else nodeForcedTrace s tout delivered k reason
  | some (tc, out), none => nodeNaturalTrace tout delivered tc out
  | none, some (k, reason) => nodeForcedTrace s tout delivered k reason
  | none, none => nodeNeverTrace delivered

/-- How one web-variant attempt ends. A computation error is caught by the
script and arrives as an error-tagged message; `runtimeError` is a worker
`error` event proper. -/
inductive WebEndKind (ρ ε : Type) where
  | msgSuccess (v : ρ)
  | msgError (e : ε)
  | runtimeError (e : ε)
  | forced (reason : TermReason)
  | neverEnds
deriving DecidableEq

/-- Trace of one web-variant attempt. `exitEventCode` is the code of the
synthetic `ExitEvent` the pool's listeners dispatch, if any: a forced
termination dispatches nothing because the Web Worker API's `terminate()`
fires no event. -/
structure WebAttemptTrace (ρ ε : Type) where
  endKind : WebEndKind ρ ε
  endTime : Nat
  exitEventCode : Option Nat
  argsDeliveredAt : Option Nat
  startTimerPendingAfterEnd : Bool
  timeoutTimerPendingAfterEnd : Bool
deriving DecidableEq

/-- Web trace of a worker that ends on its own: both tagged outcomes are
messages, so the `message` listener in web `createWorker` (src/lib/web
lines 75 to 79) clears both timers for them; only an infrastructure crash
(an `error` event proper) leaves the timers alone. The synthetic
`ExitEvent` code is 0 for success and 1 otherwise (pool listeners,
src/lib/web/index.ts lines 123 to 143). -/
def webNaturalTrace {ρ ε : Type} (tout delivered : Option Nat) (tc : Nat)
    (out : CompOutcome ρ ε) : WebAttemptTrace ρ ε :=
  match out with
  | .value v =>
    { endKind := .msgSuccess v, endTime := tc, exitEventCode := some 0,
      argsDeliveredAt := delivered,
      startTimerPendingAfterEnd := false,
      timeoutTimerPendingAfterEnd := false }
  | .thrown e =>
    { endKind := .msgError e, endTime := tc, exitEventCode := some 1,
      argsDeliveredAt := delivered,
      startTimerPendingAfterEnd := false,
      timeoutTimerPendingAfterEnd := false }
  | .crashed e =>
    { endKind := .runtimeError e, endTime := tc, exitEventCode := some 1,
      argsDeliveredAt := delivered,
      startTimerPendingAfterEnd := false,
      timeoutTimerPendingAfterEnd := timerPendingAt tout tc }

/-- Web trace of a forcibly terminated worker: the Web Worker API's
`terminate()` fires no event, so no `ExitEvent` is ever dispatched. The
timeout callback (src/lib/web/index.ts lines 70 to 73) also clears the
start timer; the abort handler (lines 54 to 61) only terminates. -/
def webForcedTrace {ρ ε : Type} (s : Nat) (tout delivered : Option Nat)
    (k : Nat) (reason : TermReason) : WebAttemptTrace ρ ε :=
  match reason with
  | .byTimeout =>
    { endKind := .forced .byTimeout, endTime := k, exitEventCode := none,
      argsDeliveredAt := delivered,
      startTimerPendingAfterEnd := false,
      timeoutTimerPendingAfterEnd := false }
  | .byAbort =>
    { endKind := .forced .byAbort, endTime := k, exitEventCode := none,
      argsDeliveredAt := delivered,
      startTimerPendingAfterEnd := (!(s == 0)) && decide (k < s),
      timeoutTimerPendingAfterEnd := timerPendingAt tout k }

/-- Web trace of a worker that never ends. -/
def webNeverTrace {ρ ε : Type} (delivered : Option Nat) : WebAttemptTrace ρ ε :=
  { endKind := .neverEnds, endTime := 0, exitEventCode := none,
    argsDeliveredAt := delivered,
    startTimerPendingAfterEnd := false,
    timeoutTimerPendingAfterEnd := false }

/-- One run of web `createWorker` (src/lib/web/index.ts lines 30 to 82),
together with the `ExitEvent`s that `createPool`'s listeners (lines 123 to
153) would dispatch for it. The scheduling logic (signal, start timer,
timeout timer, timer clearing on `message`) is line for line the same as
the node variant; the differences live in the trace constructors above. -/
def webAttempt {ρ ε : Type} (startTime timeout abortRel : Option Nat)
    (beh : CompBehavior ρ ε) : WebAttemptTrace ρ ε :=
  let s := startTime.getD 0
  let tout := activeTimeout timeout
  let kill := killEvent timeout abortRel
  let delivered := deliveryAt s kill
  match naturalEnd beh delivered, kill with
  | some (tc, out), some (k, reason) =>
    if tc < k then webNaturalTrace tout delivered tc out
    else webForcedTrace s tout delivered k reason
  | some (tc, out), none => webNaturalTrace tout delivered tc out
  | none, some (k, reason) => webForcedTrace s tout delivered k reason
  | none, none => webNeverTrace delivered

/-- The error the pool rejects with: `errorInstance instanceof Error ?
errorInstance : new Error(\x60Worker stopped with exit code ${code}\x60)`
(src/node/index.ts lines 144 to 148, src/lib/web/index.ts lines 113 to
117). -/
inductive PoolError (ε : Type) where
  | captured (e : ε)
  | stoppedWithCode (code : Nat)
deriving DecidableEq

/-- One call of the executor's `resolve` or `reject`. -/
inductive SettleCall (ρ ε : Type) where
  | resolveCall (v : ρ)
  | rejectCall (e : PoolError ε)
deriving DecidableEq

/-- Result of one pooled invocation: every `resolve`/`reject` call made on
the promise executor, in order (promise semantics: only the first one
settles the promise; an empty list means the promise never settles), and
the number of workers spawned. -/
structure PoolResult (ρ ε : Type) where
  settleCalls : List (SettleCall ρ ε)
  spawns : Nat
deriving DecidableEq

/-- Builds the rejection error, as `exitHandler` does. -/
def mkRejectError {ε : Type} (errInst : Option ε) (code : Nat) : PoolError ε :=
  match errInst with
  | some e => .captured e
  | none => .stoppedWithCode code

/-- The node pool's `tryExecution`/`exitHandler` loop (src/node/index.ts
lines 127 to 158), from the attempt spawned at absolute time `t` with
attempt index `i`. `remaining` is `retriesWithIn.drop retryCount`: the
source's `retryCount < retriesWithInLength` test and
`retriesWithIn[retryCount++]` indexing correspond to matching on the head
of the remaining delays. `errInst` is the current `errorInstance`
(assigned by the `error` listener, never cleared).

Per attempt: a message resolves the promise and the clean exit (code 0)
makes `exitHandler` return; an `error` event assigns `errorInstance` and
the crash exit (code 1) reaches `exitHandler`; a forced termination exits
with code 1 with `errorInstance` untouched; `exitHandler` on a nonzero
code either schedules `tryExecution` after the next retry delay or
rejects. An attempt that never ends leaves the promise pending. -/
def nodeRunFrom {ρ ε : Type} (opts : RunnableOption) (beh : Nat → CompBehavior ρ ε)
    (t i : Nat) (remaining : List Nat) (errInst : Option ε) : PoolResult ρ ε :=
  let tr := nodeAttempt opts.startTime opts.timeout (abortRelAt opts.signal t) (beh i)
  match tr.endKind with
  | .outcomeMsg v => { settleCalls := [.resolveCall v], spawns := 1 }
  | .neverEnds => { settleCalls := [], spawns := 1 }
  | .runtimeError e =>
    match remaining with
    | [] => { settleCalls := [.rejectCall (mkRejectError (some e) 1)], spawns := 1 }
    | d :: rest =>
      let r := nodeRunFrom opts beh (t + tr.endTime + d) (i + 1) rest (some e)
      { settleCalls := r.settleCalls, spawns := 1 + r.spawns }
  | .forced _ =>
    match remaining with
    | [] => { settleCalls := [.rejectCall (mkRejectError errInst 1)], spawns := 1 }
    | d :: rest =>
      let r := nodeRunFrom opts beh (t + tr.endTime + d) (i + 1) rest errInst
      { settleCalls := r.settleCalls, spawns := 1 + r.spawns }

/-- One invocation of the function returned by node `createPool`
(src/node/index.ts lines 123 to 160): attempt 0 spawns at time 0 with the
full retry budget and no recorded error. -/
def nodeRunPool {ρ ε : Type} (opts : RunnableOption) (beh : Nat → CompBehavior ρ ε) :
    PoolResult ρ ε :=
  nodeRunFrom opts beh 0 0 opts.retriesWithIn none

/-- The web pool's loop (src/lib/web/index.ts lines 96 to 157). A success
message resolves and dispatches `ExitEvent 0`; an error message or an
`error` event assigns `errorInstance` and dispatches `ExitEvent 1`; a
forced termination dispatches nothing, so `exitHandler` never runs for it
and the promise stays pending. -/
def webRunFrom {ρ ε : Type} (opts : RunnableOption) (beh : Nat → CompBehavior ρ ε)
    (t i : Nat) (remaining : List Nat) (errInst : Option ε) : PoolResult ρ ε :=
  let tr := webAttempt opts.startTime opts.timeout (abortRelAt opts.signal t) (beh i)
  match tr.endKind with
  | .msgSuccess v => { settleCalls := [.resolveCall v], spawns := 1 }
  | .neverEnds => { settleCalls := [], spawns := 1 }
  | .forced _ => { settleCalls := [], spawns := 1 }
  | .msgError e =>
    match remaining with
    | [] => { settleCalls := [.rejectCall (mkRejectError (some e) 1)], spawns := 1 }
    | d :: rest =>
      let r := webRunFrom opts beh (t + tr.endTime + d) (i + 1) rest (some e)
      { settleCalls := r.settleCalls, spawns := 1 + r.spawns }
  | .runtimeError e =>
    match remaining with
    | [] => { settleCalls := [.rejectCall (mkRejectError (some e) 1)], spawns := 1 }
    | d :: rest =>
      let r := webRunFrom opts beh (t + tr.endTime + d) (i + 1) rest (some e)
      { settleCalls := r.settleCalls, spawns := 1 + r.spawns }

/-- One invocation of the function returned by web `createPool`. -/
def webRunPool {ρ ε : Type} (opts : RunnableOption) (beh : Nat → CompBehavior ρ ε) :
    PoolResult ρ ε :=
  webRunFrom opts beh 0 0 opts.retriesWithIn none

theorem abortRelAt_none (t : Nat) : abortRelAt none t = none := rfl

theorem abortRelAt_alreadyAborted (t : Nat) :
    abortRelAt (some .alreadyAborted) t = none := rfl

theorem killEvent_congr {to1 to2 ab : Option Nat}
    (h : activeTimeout to1 = activeTimeout to2) :
    killEvent to1 ab = killEvent to2 ab := by
  unfold killEvent
  rw [h]

theorem nodeAttempt_congr {ρ ε : Type} {st1 st2 to1 to2 ab1 ab2 : Option Nat}
    (beh : CompBehavior ρ ε)
    (hs : st1.getD 0 = st2.getD 0) (ht : activeTimeout to1 = activeTimeout to2)
    (hab : ab1 = ab2) :
    nodeAttempt st1 to1 ab1 beh = nodeAttempt st2 to2 ab2 beh := by
  unfold nodeAttempt
  rw [hs, ht, hab, killEvent_congr ht]

theorem webAttempt_congr {ρ ε : Type} {st1 st2 to1 to2 ab1 ab2 : Option Nat}
    (beh : CompBehavior ρ ε)
    (hs : st1.getD 0 = st2.getD 0) (ht : activeTimeout to1 = activeTimeout to2)
    (hab : ab1 = ab2) :
    webAttempt st1 to1 ab1 beh = webAttempt st2 to2 ab2 beh := by
  unfold webAttempt
  rw [hs, ht, hab, killEvent_congr ht]

theorem nodeRunFrom_congr {ρ ε : Type} (o1 o2 : RunnableOption)
    (beh : Nat → CompBehavior ρ ε)
    (hs : o1.startTime.getD 0 = o2.startTime.getD 0)
    (ht : activeTimeout o1.timeout = activeTimeout o2.timeout)
    (hsig : ∀ t, abortRelAt o1.signal t = abortRelAt o2.signal t) :
    ∀ (remaining : List Nat) (t i : Nat) (errInst : Option ε),
      nodeRunFrom o1 beh t i remaining errInst = nodeRunFrom o2 beh t i remaining errInst := by
  intro remaining
  induction remaining with
  | nil =>
    intro t i errInst
    unfold nodeRunFrom
    rw [nodeAttempt_congr (beh i) hs ht (hsig t)]
  | cons d rest ih =>
    intro t i errInst
    unfold nodeRunFrom
    rw [nodeAttempt_congr (beh i) hs ht (hsig t)]
    cases h : (nodeAttempt o2.startTime o2.timeout (abortRelAt o2.signal t) (beh i)).endKind <;>
      simp [h, ih]

theorem webRunFrom_congr {ρ ε : Type} (o1 o2 : RunnableOption)
    (beh : Nat → CompBehavior ρ ε)
    (hs : o1.startTime.getD 0 = o2.startTime.getD 0)
    (ht : activeTimeout o1.timeout = activeTimeout o2.timeout)
    (hsig : ∀ t, abortRelAt o1.signal t = abortRelAt o2.signal t) :
    ∀ (remaining : List Nat) (t i : Nat) (errInst : Option ε),
      webRunFrom o1 beh t i remaining errInst = webRunFrom o2 beh t i remaining errInst := by
  intro remaining
  induction remaining with
  | nil =>
    intro t i errInst
    unfold webRunFrom
    rw [webAttempt_congr (beh i) hs ht (hsig t)]
  | cons d rest ih =>
    intro t i errInst
    unfold webRunFrom
    rw [webAttempt_congr (beh i) hs ht (hsig t)]
    cases h : (webAttempt o2.startTime o2.timeout (abortRelAt o2.signal t) (beh i)).endKind <;>
      simp [h, ih]

theorem nodeRunFrom_spawns_pos {ρ ε : Type} (opts : RunnableOption)
    (beh : Nat → CompBehavior ρ ε) (t i : Nat) (remaining : List Nat)
    (errInst : Option ε) :
    1 ≤ (nodeRunFrom opts beh t i remaining errInst).spawns := by
  unfold nodeRunFrom
  cases h : (nodeAttempt opts.startTime opts.timeout (abortRelAt opts.signal t) (beh i)).endKind <;>
    cases remaining <;> simp [h]

theorem nodeRunFrom_settle_le_one {ρ ε : Type} (opts : RunnableOption)
    (beh : Nat → CompBehavior ρ ε) :
    ∀ (remaining : List Nat) (t i : Nat) (errInst : Option ε),
      (nodeRunFrom opts beh t i remaining errInst).settleCalls.length ≤ 1 := by
  intro remaining
  induction remaining with
  | nil =>
    intro t i errInst
    unfold nodeRunFrom
    cases h : (nodeAttempt opts.startTime opts.timeout (abortRelAt opts.signal t) (beh i)).endKind <;>
      simp [h]
  | cons d rest ih =>
    intro t i errInst
    unfold nodeRunFrom
    cases h : (nodeAttempt opts.startTime opts.timeout (abortRelAt opts.signal t) (beh i)).endKind <;>
      simp [h, ih]

theorem webRunFrom_settle_le_one {ρ ε : Type} (opts : RunnableOption)
    (beh : Nat → CompBehavior ρ ε) :
    ∀ (remaining : List Nat) (t i : Nat) (errInst : Option ε),
      (webRunFrom opts beh t i remaining errInst).settleCalls.length ≤ 1 := by
  intro remaining
  induction remaining with
  | nil =>
    intro t i errInst
    unfold webRunFrom
    cases h : (webAttempt opts.startTime opts.timeout (abortRelAt opts.signal t) (beh i)).endKind <;>
      simp [h]
  | cons d rest ih =>
    intro t i errInst
    unfold webRunFrom
    cases h : (webAttempt opts.startTime opts.timeout (abortRelAt opts.signal t) (beh i)).endKind <;>
      simp [h, ih]

theorem naturalEnd_value_inv {ρ ε : Type} {beh : CompBehavior ρ ε}
    {delivered : Option Nat} {tc : Nat} {v : ρ}
    (h : naturalEnd beh delivered = some (tc, .value v)) :
    ∃ d, beh = .returns v d := by
  cases beh <;> cases delivered <;> simp [naturalEnd] at h
  case returns v' d td => exact ⟨d, by rw [h.2]⟩

theorem nodeNaturalTrace_value_of_outcomeMsg {ρ ε : Type}
    {tout delivered : Option Nat} {tc : Nat} {out : CompOutcome ρ ε} {v : ρ}
    (h : (nodeNaturalTrace tout delivered tc out).endKind = .outcomeMsg v) :
    out = .value v := by
  cases out <;> simp_all [nodeNaturalTrace]

theorem nodeForcedTrace_endKind {ρ ε : Type} (s : Nat)
    (tout delivered : Option Nat) (k : Nat) (reason : TermReason) :
    (nodeForcedTrace (ρ := ρ) (ε := ε) s tout delivered k reason).endKind = .forced reason := by
  cases reason <;> rfl

theorem nodeForcedTrace_exitCode {ρ ε : Type} (s : Nat)
    (tout delivered : Option Nat) (k : Nat) (reason : TermReason) :
    (nodeForcedTrace (ρ := ρ) (ε := ε) s tout delivered k reason).exitCode = some 1 := by
  cases reason <;> rfl

theorem nodeAttempt_outcomeMsg_inv {ρ ε : Type} {st tmo ab : Option Nat}
    {beh : CompBehavior ρ ε} {v : ρ}
    (h : (nodeAttempt st tmo ab beh).endKind = .outcomeMsg v) :
    ∃ d, beh = .returns v d := by
  simp only [nodeAttempt] at h
  rcases hk : killEvent tmo ab with _ | ⟨k, reason⟩ <;> rw [hk] at h
  · rcases hne : naturalEnd beh (deliveryAt (st.getD 0) none) with _ | ⟨tc, out⟩ <;>
      rw [hne] at h <;> dsimp only at h
    · simp [nodeNeverTrace] at h
    · have hout := nodeNaturalTrace_value_of_outcomeMsg h
      rw [hout] at hne
      exact naturalEnd_value_inv hne
  · rcases hne : naturalEnd beh (deliveryAt (st.getD 0) (some (k, reason))) with _ | ⟨tc, out⟩ <;>
      rw [hne] at h <;> dsimp only at h
    · rw [nodeForcedTrace_endKind] at h
      simp at h
    · by_cases hlt : tc < k
      · rw [if_pos hlt] at h
        have hout := nodeNaturalTrace_value_of_outcomeMsg h
        rw [hout] at hne
        exact naturalEnd_value_inv hne
      · rw [if_neg hlt, nodeForcedTrace_endKind] at h
        simp at h

theorem nodeAttempt_exitCode_of_forced {ρ ε : Type} {st tmo ab : Option Nat}
    {beh : CompBehavior ρ ε} {reason : TermReason}
    (h : (nodeAttempt st tmo ab beh).endKind = .forced reason) :
    (nodeAttempt st tmo ab beh).exitCode = some 1 := by
  simp only [nodeAttempt] at h ⊢
  rcases hk : killEvent tmo ab with _ | ⟨k, r⟩ <;> rw [hk] at h
  · rcases hne : naturalEnd beh (deliveryAt (st.getD 0) none) with _ | ⟨tc, out⟩ <;>
      rw [hne] at h <;> dsimp only at h ⊢
    · simp [nodeNeverTrace] at h
    · cases out <;> simp_all [nodeNaturalTrace]
  · rcases hne : naturalEnd beh (deliveryAt (st.getD 0) (some (k, r))) with _ | ⟨tc, out⟩ <;>
      rw [hne] at h <;> dsimp only at h ⊢
    · exact nodeForcedTrace_exitCode _ _ _ _ _
    · by_cases hlt : tc < k
      · rw [if_pos hlt] at h ⊢
        cases out <;> simp_all [nodeNaturalTrace]
      · rw [if_neg hlt] at h ⊢
        exact nodeForcedTrace_exitCode _ _ _ _ _

theorem nodeRunFrom_allError {ρ ε : Type} (opts : RunnableOption)
    (beh : Nat → CompBehavior ρ ε) (e : Nat → ε)
    (hsig : opts.signal = none)
    (h : ∀ i, (nodeAttempt opts.startTime opts.timeout none (beh i)).endKind = .runtimeError (e i)) :
    ∀ (remaining : List Nat) (t i : Nat) (errInst : Option ε),
      nodeRunFrom opts beh t i remaining errInst =
        { settleCalls := [.rejectCall (.captured (e (i + remaining.length)))],
          spawns := remaining.length + 1 } := by
  intro remaining
  induction remaining with
  | nil =>
    intro t i errInst
    simp only [nodeRunFrom]
    rw [hsig, abortRelAt_none, h i]
    dsimp only
    simp [mkRejectError]
  | cons d rest ih =>
    intro t i errInst
    simp only [nodeRunFrom]
    rw [hsig, abortRelAt_none, h i]
    dsimp only
    rw [ih]
    have h1 : i + 1 + rest.length = i + (d :: rest).length := by
      simp [List.length_cons]
      omega
    have h2 : 1 + (rest.length + 1) = (d :: rest).length + 1 := by
      simp [List.length_cons]
      omega
    rw [h1, h2]

theorem nodeRunFrom_allForcedFixed {ρ ε : Type} (opts : RunnableOption)
    (beh : Nat → CompBehavior ρ ε) (e : ε)
    (hsig : opts.signal = none)
    (hforced : ∀ i, 1 ≤ i →
      ∃ reason, (nodeAttempt opts.startTime opts.timeout none (beh i)).endKind = .forced reason) :
    ∀ (remaining : List Nat) (t i : Nat), 1 ≤ i →
      nodeRunFrom opts beh t i remaining (some e) =
        { settleCalls := [.rejectCall (.captured e)], spawns := remaining.length + 1 } := by
  intro remaining
  induction remaining with
  | nil =>
    intro t i hi
    obtain ⟨reason, hr⟩ := hforced i hi
    simp only [nodeRunFrom]
    rw [hsig, abortRelAt_none, hr]
    dsimp only
    simp [mkRejectError]
  | cons d rest ih =>
    intro t i hi
    obtain ⟨reason, hr⟩ := hforced i hi
    simp only [nodeRunFrom]
    rw [hsig, abortRelAt_none, hr]
    dsimp only
    rw [ih _ (i + 1) (by omega)]
    have h2 : 1 + (rest.length + 1) = (d :: rest).length + 1 := by
      simp [List.length_cons]
      omega
    rw [h2]

theorem nodeAttempt_timers_of_outcomeMsg {ρ ε : Type} {st tmo ab : Option Nat}
    {beh : CompBehavior ρ ε} {v : ρ}
    (h : (nodeAttempt st tmo ab beh).endKind = .outcomeMsg v) :
    (nodeAttempt st tmo ab beh).startTimerPendingAfterEnd = false ∧
    (nodeAttempt st tmo ab beh).timeoutTimerPendingAfterEnd = false := by
  simp only [nodeAttempt] at h ⊢
  rcases hk : killEvent tmo ab with _ | ⟨k, r⟩ <;> rw [hk] at h
  · rcases hne : naturalEnd beh (deliveryAt (st.getD 0) none) with _ | ⟨tc, out⟩ <;>
      rw [hne] at h <;> dsimp only at h ⊢
    · simp [nodeNeverTrace] at h
    · cases out <;> simp_all [nodeNaturalTrace]
  · rcases hne : naturalEnd beh (deliveryAt (st.getD 0) (some (k, r))) with _ | ⟨tc, out⟩ <;>
      rw [hne] at h <;> dsimp only at h ⊢
    · rw [nodeForcedTrace_endKind] at h
      simp at h
    · by_cases hlt : tc < k
      · rw [if_pos hlt] at h ⊢
        cases out <;> simp_all [nodeNaturalTrace]
      · rw [if_neg hlt] at h
        rw [nodeForcedTrace_endKind] at h
        simp at h

theorem webForcedTrace_endKind {ρ ε : Type} (s : Nat)
    (tout delivered : Option Nat) (k : Nat) (reason : TermReason) :
    (webForcedTrace (ρ := ρ) (ε := ε) s tout delivered k reason).endKind = .forced reason := by
  cases reason <;> rfl

theorem webAttempt_timers_of_msgSuccess {ρ ε : Type} {st tmo ab : Option Nat}
    {beh : CompBehavior ρ ε} {v : ρ}
    (h : (webAttempt st tmo ab beh).endKind = .msgSuccess v) :
    (webAttempt st tmo ab beh).startTimerPendingAfterEnd = false ∧
    (webAttempt st tmo ab beh).timeoutTimerPendingAfterEnd = false := by
  simp only [webAttempt] at h ⊢
  rcases hk : killEvent tmo ab with _ | ⟨k, r⟩ <;> rw [hk] at h
  · rcases hne : naturalEnd beh (deliveryAt (st.getD 0) none) with _ | ⟨tc, out⟩ <;>
      rw [hne] at h <;> dsimp only at h ⊢
    · simp [webNeverTrace] at h
    · cases out <;> simp_all [webNaturalTrace]
  · rcases hne : naturalEnd beh (deliveryAt (st.getD 0) (some (k, r))) with _ | ⟨tc, out⟩ <;>
      rw [hne] at h <;> dsimp only at h ⊢
    · rw [webForcedTrace_endKind] at h
      simp at h
    · by_cases hlt : tc < k
      · rw [if_pos hlt] at h ⊢
        cases out <;> simp_all [webNaturalTrace]
      · rw [if_neg hlt] at h
        rw [webForcedTrace_endKind] at h
        simp at h

theorem webAttempt_timers_of_msgError {ρ ε : Type} {st tmo ab : Option Nat}
    {beh : CompBehavior ρ ε} {e : ε}
    (h : (webAttempt st tmo ab beh).endKind = .msgError e) :
    (webAttempt st tmo ab beh).startTimerPendingAfterEnd = false ∧
    (webAttempt st tmo ab beh).timeoutTimerPendingAfterEnd = false := by
  simp only [webAttempt] at h ⊢
  rcases hk : killEvent tmo ab with _ | ⟨k, r⟩ <;> rw [hk] at h
  · rcases hne : naturalEnd beh (deliveryAt (st.getD 0) none) with _ | ⟨tc, out⟩ <;>
      rw [hne] at h <;> dsimp only at h ⊢
    · simp [webNeverTrace] at h
    · cases out <;> simp_all [webNaturalTrace]
  · rcases hne : naturalEnd beh (deliveryAt (st.getD 0) (some (k, r))) with _ | ⟨tc, out⟩ <;>
      rw [hne] at h <;> dsimp only at h ⊢
    · rw [webForcedTrace_endKind] at h
      simp at h
    · by_cases hlt : tc < k
      · rw [if_pos hlt] at h ⊢
        cases out <;> simp_all [webNaturalTrace]
      · rw [if_neg hlt] at h
        rw [webForcedTrace_endKind] at h
        simp at h

/-- C1: for every invocation of the node pool whose first attempt succeeds
(its worker ends by posting the outcome message carrying `v`), the promise
is resolved with exactly `v` — which is exactly the value the computation
returned, since only a `returns v` behaviour can produce that message —
and exactly one worker is spawned. -/
theorem c1_first_success_resolves {ρ ε : Type} (opts : RunnableOption)
    (beh : Nat → CompBehavior ρ ε) (v : ρ)
    (h : (nodeAttempt opts.startTime opts.timeout (abortRelAt opts.signal 0)
      (beh 0)).endKind = .outcomeMsg v) :
    nodeRunPool opts beh = { settleCalls := [.resolveCall v], spawns := 1 } ∧
    ∃ d, beh 0 = .returns v d := by
  constructor
  · unfold nodeRunPool
    rw [nodeRunFrom.eq_def]
    dsimp only
    rw [h]
  · exact nodeAttempt_outcomeMsg_inv h

/-- Witness for C1: `(a, b) => a + b` style scenario — a computation that
returns 5 immediately, no options: resolves 5, one spawn. -/
theorem c1_first_success_resolves_witness :
    (nodeAttempt ({} : RunnableOption).startTime ({} : RunnableOption).timeout
        (abortRelAt ({} : RunnableOption).signal 0)
        ((fun _ => CompBehavior.returns 5 0 : Nat → CompBehavior Nat Nat) 0)).endKind =
      .outcomeMsg 5 ∧
    nodeRunPool ({} : RunnableOption) (fun _ => (CompBehavior.returns 5 0 : CompBehavior Nat Nat)) =
      { settleCalls := [.resolveCall 5], spawns := 1 } :=
  ⟨by decide,
   (c1_first_success_resolves {} (fun _ => CompBehavior.returns 5 0) 5 (by decide)).1⟩

/-- C2: a computation that fails unconditionally (every attempt ends in a
runtime `error` event carrying `e i`) causes exactly
`retriesWithIn.length + 1` worker spawns and one final rejection whose
error is the last attempt's error `e retriesWithIn.length`. -/
theorem c2_unconditional_failure_rejects_last {ρ ε : Type} (opts : RunnableOption)
    (beh : Nat → CompBehavior ρ ε) (e : Nat → ε)
    (hsig : opts.signal = none)
    (h : ∀ i, (nodeAttempt opts.startTime opts.timeout none (beh i)).endKind =
      .runtimeError (e i)) :
    nodeRunPool opts beh =
      { settleCalls := [.rejectCall (.captured (e opts.retriesWithIn.length))],
        spawns := opts.retriesWithIn.length + 1 } := by
  unfold nodeRunPool
  rw [nodeRunFrom_allError opts beh e hsig h opts.retriesWithIn 0 0 none]
  simp

/-- Witness for C2: always-throwing computation with `retriesWithIn =
[10, 20]`: three spawns, rejection carries the third attempt's error. -/
theorem c2_unconditional_failure_rejects_last_witness :
    ({ retriesWithIn := [10, 20] } : RunnableOption).signal = none ∧
    (∀ i, (nodeAttempt ({ retriesWithIn := [10, 20] } : RunnableOption).startTime
        ({ retriesWithIn := [10, 20] } : RunnableOption).timeout none
        ((fun i => CompBehavior.throws (100 + i) 1 : Nat → CompBehavior Nat Nat) i)).endKind =
      .runtimeError (100 + i)) ∧
    nodeRunPool ({ retriesWithIn := [10, 20] } : RunnableOption)
        (fun i => (CompBehavior.throws (100 + i) 1 : CompBehavior Nat Nat)) =
      { settleCalls := [.rejectCall (.captured 102)], spawns := 3 } :=
  ⟨rfl, fun i => rfl,
   c2_unconditional_failure_rejects_last { retriesWithIn := [10, 20] }
     (fun i => CompBehavior.throws (100 + i) 1) (fun i => 100 + i) rfl (fun i => rfl)⟩

/-- C3 counterexample: with no timeout and a computation that never
completes, the node pool's promise receives no `resolve` and no `reject`
call at all — it is left permanently unsettled, so it does not settle
exactly once as claimed. -/
theorem c3_settle_counterexample :
    (nodeRunPool ({} : RunnableOption)
      (fun _ => (CompBehavior.hangs : CompBehavior Nat Nat))).settleCalls = [] := by
  decide

/-- C3 amended: in both variants the promise settles at most once (the
first `resolve`/`reject` wins and no run makes two settle calls), but it
is not guaranteed to settle: a hanging computation with no timeout (or,
in the web variant, any forced termination) leaves it pending forever. -/
theorem c3_settles_at_most_once {ρ ε : Type} :
    (∀ (opts : RunnableOption) (beh : Nat → CompBehavior ρ ε),
      (nodeRunPool opts beh).settleCalls.length ≤ 1) ∧
    (∀ (opts : RunnableOption) (beh : Nat → CompBehavior ρ ε),
      (webRunPool opts beh).settleCalls.length ≤ 1) :=
  ⟨fun opts beh => nodeRunFrom_settle_le_one opts beh opts.retriesWithIn 0 0 none,
   fun opts beh => webRunFrom_settle_le_one opts beh opts.retriesWithIn 0 0 none⟩

/-- C4 counterexample: the signal aborts at 1 ms into the first attempt of
a hanging computation with `retriesWithIn = [5]`; the node pool spawns a
second worker — a retry attempt IS spawned after the cancellation fired,
contradicting the claim that none is, regardless of `retriesWithIn`. -/
theorem c4_abort_counterexample :
    (nodeRunPool ({ signal := some (.abortsAt 1), retriesWithIn := [5] } : RunnableOption)
      (fun _ => (CompBehavior.hangs : CompBehavior Nat Nat))).spawns = 2 := by
  decide

/-- C4 amended: when the signal fires during the first attempt of a node
invocation, the active worker is terminated immediately, but the
termination surfaces as an ordinary `exit` event with code 1, which feeds
the retry logic: with a nonempty `retriesWithIn` at least one further
worker is spawned (the spec's §7/§9 note the web variant differs: there
`terminate()` fires no event and no retry follows). -/
theorem c4_abort_is_retried {ρ ε : Type} (opts : RunnableOption)
    (beh : Nat → CompBehavior ρ ε) (d : Nat) (rest : List Nat)
    (hr : opts.retriesWithIn = d :: rest)
    (h : (nodeAttempt opts.startTime opts.timeout (abortRelAt opts.signal 0)
      (beh 0)).endKind = .forced .byAbort) :
    (nodeAttempt opts.startTime opts.timeout (abortRelAt opts.signal 0)
      (beh 0)).exitCode = some 1 ∧
    2 ≤ (nodeRunPool opts beh).spawns := by
  refine ⟨nodeAttempt_exitCode_of_forced h, ?_⟩
  unfold nodeRunPool
  rw [hr, nodeRunFrom.eq_def]
  dsimp only
  rw [h]
  dsimp only
  have hp := nodeRunFrom_spawns_pos opts beh
    (0 + (nodeAttempt opts.startTime opts.timeout (abortRelAt opts.signal 0)
      (beh 0)).endTime + d) (0 + 1) rest none
  omega

/-- Witness for C4 amended: abort at 1 ms, hang, `retriesWithIn = [5]`. -/
theorem c4_abort_is_retried_witness :
    (nodeAttempt ({ signal := some (.abortsAt 1), retriesWithIn := [5] } : RunnableOption).startTime
        ({ signal := some (.abortsAt 1), retriesWithIn := [5] } : RunnableOption).timeout
        (abortRelAt ({ signal := some (.abortsAt 1), retriesWithIn := [5] } : RunnableOption).signal 0)
        ((fun _ => CompBehavior.hangs : Nat → CompBehavior Nat Nat) 0)).endKind =
      .forced .byAbort ∧
    2 ≤ (nodeRunPool ({ signal := some (.abortsAt 1), retriesWithIn := [5] } : RunnableOption)
      (fun _ => (CompBehavior.hangs : CompBehavior Nat Nat))).spawns :=
  ⟨by decide,
   (c4_abort_is_retried { signal := some (.abortsAt 1), retriesWithIn := [5] }
     (fun _ => CompBehavior.hangs) 5 [] rfl (by decide)).2⟩

/-- C5: with a configured timeout `T ≠ 0` (the timer is created at spawn
with fire time `T`), no abort, and a computation that never completes, the
worker is terminated exactly at `T`, the pending start timer is cancelled
by the timeout callback, the exit carries code 1 (a failed attempt), and
the attempt is retried per `retriesWithIn`: a nonempty list spawns a
second worker, an empty list rejects with the generic stopped-with-code
error. -/
theorem c5_timeout_kills_and_retries {ρ ε : Type} (opts : RunnableOption)
    (beh : Nat → CompBehavior ρ ε) (T : Nat)
    (hT : opts.timeout = some T) (hT0 : T ≠ 0) (hsig : opts.signal = none)
    (hb : beh 0 = .hangs) :
    (nodeAttempt opts.startTime opts.timeout (abortRelAt opts.signal 0)
      (beh 0)).endKind = .forced .byTimeout ∧
    (nodeAttempt opts.startTime opts.timeout (abortRelAt opts.signal 0)
      (beh 0)).endTime = T ∧
    (nodeAttempt opts.startTime opts.timeout (abortRelAt opts.signal 0)
      (beh 0)).exitCode = some 1 ∧
    (nodeAttempt opts.startTime opts.timeout (abortRelAt opts.signal 0)
      (beh 0)).startTimerPendingAfterEnd = false ∧
    (∀ d rest, opts.retriesWithIn = d :: rest → 2 ≤ (nodeRunPool opts beh).spawns) ∧
    (opts.retriesWithIn = [] →
      (nodeRunPool opts beh).settleCalls = [.rejectCall (.stoppedWithCode 1)]) := by
  have hat : activeTimeout opts.timeout = some T := by
    rw [hT]
    simp [activeTimeout, hT0]
  have hke : killEvent opts.timeout (abortRelAt opts.signal 0) = some (T, .byTimeout) := by
    rw [hsig, abortRelAt_none]
    unfold killEvent
    rw [hat]
  have htr : nodeAttempt opts.startTime opts.timeout (abortRelAt opts.signal 0) (beh 0) =
      nodeForcedTrace (opts.startTime.getD 0) (activeTimeout opts.timeout)
        (deliveryAt (opts.startTime.getD 0) (some (T, .byTimeout))) T .byTimeout := by
    rw [hb]
    simp only [nodeAttempt]
    rw [hke]
    have hne : naturalEnd (CompBehavior.hangs : CompBehavior ρ ε)
        (deliveryAt (opts.startTime.getD 0) (some (T, TermReason.byTimeout))) = none := rfl
    rw [hne]
  refine ⟨?_, ?_, ?_, ?_, ?_, ?_⟩
  · rw [htr, nodeForcedTrace_endKind]
  · rw [htr]
    rfl
  · rw [htr]
    exact nodeForcedTrace_exitCode _ _ _ _ _
  · rw [htr]
    rfl
  · intro d rest hre
    unfold nodeRunPool
    rw [hre, nodeRunFrom.eq_def]
    dsimp only
    rw [htr, nodeForcedTrace_endKind]
    dsimp only
    have hp := nodeRunFrom_spawns_pos opts beh
      (0 + (nodeForcedTrace (ρ := ρ) (ε := ε) (opts.startTime.getD 0)
        (activeTimeout opts.timeout)
        (deliveryAt (opts.startTime.getD 0) (some (T, .byTimeout))) T .byTimeout).endTime + d)
      (0 + 1) rest none
    omega
  · intro hre
    unfold nodeRunPool
    rw [hre, nodeRunFrom.eq_def]
    dsimp only
    rw [htr, nodeForcedTrace_endKind]
    dsimp only
    rfl

/-- Witness for C5: `timeoutMs = 7`, hanging computation, no retries:
terminated at 7 with exit code 1 and the promise rejects with the generic
stopped-with-code error. -/
theorem c5_timeout_kills_and_retries_witness :
    (nodeAttempt ({ timeout := some 7 } : RunnableOption).startTime
        ({ timeout := some 7 } : RunnableOption).timeout
        (abortRelAt ({ timeout := some 7 } : RunnableOption).signal 0)
        ((fun _ => CompBehavior.hangs : Nat → CompBehavior Nat Nat) 0)).endKind =
      .forced .byTimeout ∧
    (nodeAttempt ({ timeout := some 7 } : RunnableOption).startTime
        ({ timeout := some 7 } : RunnableOption).timeout
        (abortRelAt ({ timeout := some 7 } : RunnableOption).signal 0)
        ((fun _ => CompBehavior.hangs : Nat → CompBehavior Nat Nat) 0)).endTime = 7 ∧
    (nodeRunPool ({ timeout := some 7 } : RunnableOption)
        (fun _ => (CompBehavior.hangs : CompBehavior Nat Nat))).settleCalls =
      [.rejectCall (.stoppedWithCode 1)] := by
  have h := c5_timeout_kills_and_retries ({ timeout := some 7 } : RunnableOption)
    (fun _ => (CompBehavior.hangs : CompBehavior Nat Nat)) 7 rfl (by decide) rfl rfl
  exact ⟨h.1, h.2.1, h.2.2.2.2.2 rfl⟩

/-- C6 counterexample: in the node/runtime variant (the default export),
the worker script posts no message at all when the computation throws —
not an error-tagged message — and the error surfaces as a worker runtime
`error` event instead, so the worker does not communicate its result as
exactly one tagged message. -/
theorem c6_untagged_counterexample :
    nodeScriptMessages (ρ := Nat) (ε := Nat) (.error 0) = [] ∧
    (nodeScriptMessages (ρ := Nat) (ε := Nat) (.error 0)).length ≠ 1 ∧
    nodeScriptRuntimeErrors (ρ := Nat) (ε := Nat) (.error 0) = [0] :=
  ⟨rfl, by decide, rfl⟩

/-- C6 amended: the web variant's worker script communicates exactly one
tagged message (`success` carrying the returned value, `error` carrying
the captured throw); the node variant's script instead posts the raw
untagged result as its single message on success and posts nothing on a
throw, which escapes as a worker runtime `error` event. -/
theorem c6_message_protocol {ρ ε : Type} :
    (∀ v : ρ, webScriptMessages (ε := ε) (.ok v) = [.success v]) ∧
    (∀ e : ε, webScriptMessages (ρ := ρ) (.error e) = [.error e]) ∧
    (∀ run : Except ε ρ, (webScriptMessages run).length = 1) ∧
    (∀ v : ρ, nodeScriptMessages (ε := ε) (.ok v) = [.raw v]) ∧
    (∀ e : ε, nodeScriptMessages (ρ := ρ) (.error e) = [] ∧
      nodeScriptRuntimeErrors (ρ := ρ) (.error e) = [e]) :=
  ⟨fun _ => rfl, fun _ => rfl, fun run => by cases run <;> rfl,
   fun _ => rfl, fun _ => ⟨rfl, rfl⟩⟩

/-- C7 counterexample: a computation that throws 5 ms in with a 100 ms
timeout: the attempt ends with a runtime-error event, yet the timeout
timer is still pending afterwards — the code clears timers only in the
`message` handler, not on `error` events (those handlers are commented
out in the node variant and absent in the web one). -/
theorem c7_timer_counterexample :
    (nodeAttempt (ρ := Nat) (ε := Nat) none (some 100) none
      (.throws 3 5)).endKind = .runtimeError 3 ∧
    (nodeAttempt (ρ := Nat) (ε := Nat) none (some 100) none
      (.throws 3 5)).timeoutTimerPendingAfterEnd = true := by
  decide

/-- C7 amended: both timers are cleared whenever an outcome arrives as a
worker message — the raw result message in the node variant, and both the
success-tagged and error-tagged messages in the web variant; a runtime
`error` event does not clear them (the stale timeout later fires and its
`terminate()` is a no-op on the already-exited worker). -/
theorem c7_timers_cleared_on_message {ρ ε : Type} :
    (∀ (st tmo ab : Option Nat) (beh : CompBehavior ρ ε) (v : ρ),
      (nodeAttempt st tmo ab beh).endKind = .outcomeMsg v →
      (nodeAttempt st tmo ab beh).startTimerPendingAfterEnd = false ∧
      (nodeAttempt st tmo ab beh).timeoutTimerPendingAfterEnd = false) ∧
    (∀ (st tmo ab : Option Nat) (beh : CompBehavior ρ ε) (v : ρ),
      (webAttempt st tmo ab beh).endKind = .msgSuccess v →
      (webAttempt st tmo ab beh).startTimerPendingAfterEnd = false ∧
      (webAttempt st tmo ab beh).timeoutTimerPendingAfterEnd = false) ∧
    (∀ (st tmo ab : Option Nat) (beh : CompBehavior ρ ε) (e : ε),
      (webAttempt st tmo ab beh).endKind = .msgError e →
      (webAttempt st tmo ab beh).startTimerPendingAfterEnd = false ∧
      (webAttempt st tmo ab beh).timeoutTimerPendingAfterEnd = false) :=
  ⟨fun _ _ _ _ _ h => nodeAttempt_timers_of_outcomeMsg h,
   fun _ _ _ _ _ h => webAttempt_timers_of_msgSuccess h,
   fun _ _ _ _ _ h => webAttempt_timers_of_msgError h⟩

/-- Witness for C7 amended: a successful 5 ms computation under a 100 ms
timeout has both timers cleared at its outcome message. -/
theorem c7_timers_cleared_on_message_witness :
    (nodeAttempt (ρ := Nat) (ε := Nat) none (some 100) none
      (.returns 4 5)).endKind = .outcomeMsg 4 ∧
    ((nodeAttempt (ρ := Nat) (ε := Nat) none (some 100) none
      (.returns 4 5)).startTimerPendingAfterEnd = false ∧
     (nodeAttempt (ρ := Nat) (ε := Nat) none (some 100) none
      (.returns 4 5)).timeoutTimerPendingAfterEnd = false) :=
  ⟨by decide,
   (c7_timers_cleared_on_message (ρ := Nat) (ε := Nat)).1 none (some 100) none
     (.returns 4 5) 4 (by decide)⟩

/-- C8 counterexample: with an already-aborted handle and a computation
that returns 7 after 3 ms, the first worker is not terminated at all: the
attempt ends with its outcome message and the pool resolves 7 — because
the abort listener is registered after the abort event was dispatched and
therefore never runs. -/
theorem c8_already_aborted_counterexample :
    nodeRunPool ({ signal := some .alreadyAborted } : RunnableOption)
        (fun _ => (CompBehavior.returns 7 3 : CompBehavior Nat Nat)) =
      { settleCalls := [.resolveCall 7], spawns := 1 } ∧
    (nodeAttempt ({ signal := some .alreadyAborted } : RunnableOption).startTime
        ({ signal := some .alreadyAborted } : RunnableOption).timeout
        (abortRelAt ({ signal := some .alreadyAborted } : RunnableOption).signal 0)
        (CompBehavior.returns (ρ := Nat) (ε := Nat) 7 3)).endKind ≠
      .forced .byAbort := by
  exact ⟨by decide, by decide⟩

/-- C8 amended: an already-aborted cancellation handle has no effect in
either variant — the abort listener, added after the signal aborted, never
fires, so the invocation behaves exactly as if no signal had been
passed. -/
theorem c8_already_aborted_no_op {ρ ε : Type} (opts : RunnableOption)
    (beh : Nat → CompBehavior ρ ε) (h : opts.signal = some .alreadyAborted) :
    nodeRunPool opts beh = nodeRunPool { opts with signal := none } beh ∧
    webRunPool opts beh = webRunPool { opts with signal := none } beh := by
  have hsig : ∀ t, abortRelAt opts.signal t =
      abortRelAt ({ opts with signal := none } : RunnableOption).signal t := by
    intro t
    rw [h]
    rfl
  exact ⟨nodeRunFrom_congr opts { opts with signal := none } beh rfl rfl hsig
      opts.retriesWithIn 0 0 none,
    webRunFrom_congr opts { opts with signal := none } beh rfl rfl hsig
      opts.retriesWithIn 0 0 none⟩

/-- Witness for C8 amended. -/
theorem c8_already_aborted_no_op_witness :
    ({ signal := some .alreadyAborted } : RunnableOption).signal = some .alreadyAborted ∧
    nodeRunPool ({ signal := some .alreadyAborted } : RunnableOption)
        (fun _ => (CompBehavior.returns 7 3 : CompBehavior Nat Nat)) =
      nodeRunPool { ({ signal := some .alreadyAborted } : RunnableOption) with signal := none }
        (fun _ => (CompBehavior.returns 7 3 : CompBehavior Nat Nat)) :=
  ⟨rfl, (c8_already_aborted_no_op _ _ rfl).1⟩

/-- C9: `errorInstance` is assigned by `error` events and never cleared
between attempts of one invocation, so if the first attempt records a
runtime error `e` and every later attempt is forcibly terminated without
an error event, exhausting the retries rejects with the captured `e`
rather than the generic stopped-with-exit-code error. -/
theorem c9_error_instance_persists {ρ ε : Type} (opts : RunnableOption)
    (beh : Nat → CompBehavior ρ ε) (e : ε)
    (hsig : opts.signal = none)
    (h0 : (nodeAttempt opts.startTime opts.timeout none (beh 0)).endKind = .runtimeError e)
    (hrest : ∀ i, 1 ≤ i → ∃ reason,
      (nodeAttempt opts.startTime opts.timeout none (beh i)).endKind = .forced reason) :
    nodeRunPool opts beh =
      { settleCalls := [.rejectCall (.captured e)],
        spawns := opts.retriesWithIn.length + 1 } := by
  unfold nodeRunPool
  cases hre : opts.retriesWithIn with
  | nil =>
    rw [nodeRunFrom.eq_def]
    dsimp only
    rw [hsig, abortRelAt_none, h0]
    simp [mkRejectError]
  | cons d rest =>
    rw [nodeRunFrom.eq_def]
    dsimp only
    rw [hsig, abortRelAt_none, h0]
    dsimp only
    rw [nodeRunFrom_allForcedFixed opts beh e hsig hrest rest _ (0 + 1) (by omega)]
    have h2 : 1 + (rest.length + 1) = (d :: rest).length + 1 := by
      simp [List.length_cons]
      omega
    rw [h2]

/-- Witness for C9: first attempt crashes with error 9, second attempt
hangs into a 10 ms timeout (no error event), `retriesWithIn = [1]`: the
rejection carries error 9, not the generic stopped-with-code error. -/
theorem c9_error_instance_persists_witness :
    ({ timeout := some 10, retriesWithIn := [1] } : RunnableOption).signal = none ∧
    nodeRunPool ({ timeout := some 10, retriesWithIn := [1] } : RunnableOption)
        (fun i => match i with
          | 0 => (CompBehavior.crashes 9 2 : CompBehavior Nat Nat)
          | _ + 1 => CompBehavior.hangs) =
      { settleCalls := [.rejectCall (.captured 9)], spawns := 2 } :=
  ⟨rfl,
   c9_error_instance_persists ({ timeout := some 10, retriesWithIn := [1] } : RunnableOption)
     ((fun i => match i with
       | 0 => CompBehavior.crashes 9 2
       | _ + 1 => CompBehavior.hangs) : Nat → CompBehavior Nat Nat) 9 rfl (by decide)
     (by
       intro i hi
       cases i with
       | zero => omega
       | succ n => exact ⟨.byTimeout, rfl⟩)⟩

/-- C10: a `timeout` of 0 and a `startTime` of 0 behave exactly like the
option being absent, in both variants: the whole pooled invocation is
unchanged, `timeout = 0` creates no timeout timer, and `startTime = 0`
delivers the arguments immediately at spawn. -/
theorem c10_zero_behaves_as_absent {ρ ε : Type} :
    (∀ (opts : RunnableOption) (beh : Nat → CompBehavior ρ ε),
      nodeRunPool { opts with timeout := some 0 } beh =
        nodeRunPool { opts with timeout := none } beh) ∧
    (∀ (opts : RunnableOption) (beh : Nat → CompBehavior ρ ε),
      nodeRunPool { opts with startTime := some 0 } beh =
        nodeRunPool { opts with startTime := none } beh) ∧
    (∀ (opts : RunnableOption) (beh : Nat → CompBehavior ρ ε),
      webRunPool { opts with timeout := some 0 } beh =
        webRunPool { opts with timeout := none } beh) ∧
    (∀ (opts : RunnableOption) (beh : Nat → CompBehavior ρ ε),
      webRunPool { opts with startTime := some 0 } beh =
        webRunPool { opts with startTime := none } beh) ∧
    activeTimeout (some 0) = none ∧
    (∀ kill, deliveryAt ((some 0 : Option Nat).getD 0) kill = some 0) := by
  refine ⟨?_, ?_, ?_, ?_, rfl, fun kill => rfl⟩
  · intro opts beh
    unfold nodeRunPool
    exact nodeRunFrom_congr { opts with timeout := some 0 } { opts with timeout := none }
      beh rfl rfl (fun t => rfl) _ 0 0 none
  · intro opts beh
    unfold nodeRunPool
    exact nodeRunFrom_congr { opts with startTime := some 0 } { opts with startTime := none }
      beh rfl rfl (fun t => rfl) _ 0 0 none
  · intro opts beh
    unfold webRunPool
    exact webRunFrom_congr { opts with timeout := some 0 } { opts with timeout := none }
      beh rfl rfl (fun t => rfl) _ 0 0 none
  · intro opts beh
    unfold webRunPool
    exact webRunFrom_congr { opts with startTime := some 0 } { opts with startTime := none }
      beh rfl rfl (fun t => rfl) _ 0 0 none

end Threadverse
